import Mathlib

/-!
Verification of a minimal synchronous state container (a Redux-style store):
`createStore` (state storage, dispatch, subscriber snapshot/notification,
re-entrancy guards), `compose`, `isPlainObject`, and the `applyMiddleware`
enhancer chain builder.

The JavaScript source is embedded shallowly:

* JS values inspected by `isPlainObject` become `JSValue` (non-objects, null,
  and objects carrying their prototype chain as a list of object identities).
* Actions become `ActionV`: the structural value checked by `isPlainObject`
  plus the `type` discriminant field (`Option` models `undefined`).
* The store's mutable variables (`currentState`, `currentListeners`,
  `nextListeners`, `isDispatching`, the per-handle `isSubscribed` flags)
  become an explicit record `Store`, threaded through every operation.
  The reference-identity check `nextListeners === currentListeners` in
  `ensureCanMutateNextListeners` becomes the boolean field `sameRef`, which is
  sound because the source mutates `nextListeners` only after calling
  `ensureCanMutateNextListeners` (so whenever the two lists are one array the
  model never writes through either).
* Listener callbacks become `Script`s: finite lists of store commands
  (subscribe a new listener, invoke an unsubscribe handle).  Each subscription
  gets a fresh numeric id (function identity), and invocation order is
  recorded in a ghost `log` field.
* Reducers become `RedB`: a pure function, a reducer that raises, or a reducer
  that performs a nested `dispatch` (fuel bounds that recursion; fuel is only
  consumed by nesting).
* Exceptions become `Except`, with the store state returned alongside so that
  post-exception state is observable (JS mutations survive a throw).
-/

/-- Errors raised by the store, by taxonomy of the design:
`invalidAction` (action not a plain record / missing `type`),
`illegalStateAccess` (read, subscribe, unsubscribe or nested dispatch while
dispatching), `invalidArgument` (non-function where a function is required),
`prematureDispatch` (middleware API dispatch called during chain building),
`userError` (an arbitrary exception raised by a consumer-supplied reducer),
`fuelExhausted` (model artifact: out of nesting fuel). -/
inductive StoreError where
  | invalidAction
  | illegalStateAccess
  | invalidArgument
  | prematureDispatch
  | userError (code : Nat)
  | fuelExhausted
  deriving DecidableEq, Repr

/-- A JavaScript value as inspected by `isPlainObject`:
`prim` covers every value with `typeof v !== 'object'` (numbers, strings,
functions, ...), `jsNull` is `null`, and `object chain` is an object whose
prototype chain above it consists of the objects with the listed identities
(ending at `null`).  Prototype chains in JS are finite and acyclic, so the
identities in a chain are pairwise distinct in any reachable value. -/
inductive JSValue where
  | prim
  | jsNull
  | object (chain : List Nat)
  deriving DecidableEq, Repr

/-- The `while (Object.getPrototypeOf(proto) !== null) proto = Object.getPrototypeOf(proto)`
loop from `isPlainObject`: starting from prototype `p` with the rest of the
chain above it, returns the last prototype before `null`. -/
def protoWalk (p : Nat) : List Nat → Nat
  | [] => p
  | q :: rest => protoWalk q rest

/-- `isPlainObject(obj)` from the source: false for non-objects and `null`;
for an object, walks the prototype chain to its last element `proto` and
returns `Object.getPrototypeOf(obj) === proto`.  An object whose immediate
prototype IS the end of the chain (a plain literal, chain `[Object.prototype]`)
yields true; class instances (longer chains) and `Object.create(null)` objects
(empty chain) yield false. -/
def isPlainObject : JSValue → Bool
  | .object (p :: rest) => p == protoWalk p rest
  | _ => false

/-- The discriminant domain for action `type` fields.  `init` and `replace`
model the two library-internal reserved discriminants (`ActionTypes.INIT`,
`ActionTypes.REPLACE`), guaranteed distinct from every consumer-defined
discriminant `user t`. -/
inductive ATyp (π : Type) where
  | init
  | replace
  | user (t : π)
  deriving DecidableEq, Repr

/-- An action as dispatch inspects it: its structural value (for the
plain-object check) and its `type` field (`none` models `undefined`). -/
structure ActionV (π : Type) where
  value : JSValue
  typeField : Option (ATyp π)
  deriving DecidableEq, Repr

/-- `typeof action.type === 'undefined'` is the negation of this. -/
def ActionV.hasType (a : ActionV π) : Bool := a.typeField.isSome

/-- A plain object literal (prototype chain is exactly `[Object.prototype]`,
whose identity we fix as 0). -/
def plainValue : JSValue := .object [0]

/-- The internal bootstrap action `{ type: ActionTypes.INIT }`. -/
def initAction (π : Type) : ActionV π := { value := plainValue, typeField := some .init }

/-- `compose` from compose.js over single-argument functions:
zero functions return `arg => arg`; one function is returned unchanged;
otherwise `funcs.reduce((a, b) => (...args) => a(b(...args)))`, i.e. a left
fold of pairwise composition starting from the first function. -/
def compose : List (α → α) → α → α
  | [] => fun arg => arg
  | [f] => f
  | f :: g :: rest => (g :: rest).foldl (fun a b => fun args => a (b args)) f

example : compose ([] : List (Nat → Nat)) 5 = 5 := rfl
example : compose [fun n => n + 1] 5 = 6 := rfl
example : compose [fun n => n * 2, fun n => n + 3] 5 = 16 := rfl

/-- A command a listener callback may perform when invoked:
subscribe a fresh listener with the given behavior, or invoke the unsubscribe
handle with the given id. -/
inductive LCmd where
  | subNew (body : List LCmd)
  | unsubH (id : Nat)

/-- A listener callback's behavior: the commands it performs when invoked. -/
abbrev Script := List LCmd

/-- The store's mutable variables from `createStore`, plus bookkeeping:

* `stateV` is `currentState`, `currentListeners`/`nextListeners` hold the
  committed and pending listener ids, `isDispatching` the re-entrancy flag.
* `sameRef` models `nextListeners === currentListeners` (the two variables
  holding the same array object).
* Each subscription gets the fresh id `nextId`; `behaviors` maps ids to the
  listener's `Script`; `revoked` holds the ids whose unsubscribe handle has
  set its `isSubscribed` closure flag to false.
* `log` is ghost instrumentation: the ids of listener invocations, in order. -/
structure Store (σ : Type) where
  stateV : σ
  currentListeners : List Nat
  nextListeners : List Nat
  sameRef : Bool
  isDispatching : Bool
  nextId : Nat
  behaviors : List (Nat × Script)
  revoked : List Nat
  log : List Nat

/-- `ensureCanMutateNextListeners`: if `nextListeners === currentListeners`,
replace `nextListeners` with a copy (`currentListeners.slice()`), so that
later mutations of the pending list do not touch the committed array. -/
def ensureCanMutateNextListeners (s : Store σ) : Store σ :=
  if s.sameRef then { s with nextListeners := s.currentListeners, sameRef := false }
  else s

/-- `getState`: fails with `IllegalStateAccess` while dispatching, otherwise
returns `currentState`. -/
def getState (s : Store σ) : Except StoreError σ :=
  if s.isDispatching then .error .illegalStateAccess
  else .ok s.stateV

/-- `subscribe(listener)`: fails while dispatching; otherwise marks the fresh
handle subscribed, copies the pending list on first write since the last
commit, appends the listener, and returns the handle id (the unsubscribe
capability).  The `typeof listener !== 'function'` guard has no counterpart:
a `Script` is always a function. -/
def subscribe (body : Script) (s : Store σ) : Except StoreError Nat × Store σ :=
  if s.isDispatching then (.error .illegalStateAccess, s)
  else
    let id := s.nextId
    let s1 := ensureCanMutateNextListeners s
    (.ok id,
      { s1 with
        nextListeners := s1.nextListeners ++ [id]
        behaviors := s1.behaviors ++ [(id, body)]
        nextId := id + 1 })

/-- `arr.splice(arr.indexOf(x), 1)`: removes the first occurrence of `x` when
present; when absent (`indexOf` is -1, `splice(-1, 1)`) removes the last
element. -/
def spliceOut (x : Nat) (l : List Nat) : List Nat :=
  match l.indexOf? x with
  | some i => l.eraseIdx i
  | none => l.dropLast

/-- The `unsubscribe` capability for handle `id`: if already revoked, returns
silently; else fails while dispatching; else clears the `isSubscribed` flag,
copies the pending list on first write, and splices the listener out of it. -/
def unsubscribe (id : Nat) (s : Store σ) : Except StoreError Unit × Store σ :=
  if id ∈ s.revoked then (.ok (), s)
  else if s.isDispatching then (.error .illegalStateAccess, s)
  else
    let s1 := ensureCanMutateNextListeners { s with revoked := id :: s.revoked }
    (.ok (), { s1 with nextListeners := spliceOut id s1.nextListeners })

/-- Run one listener command through the real store operations, propagating
any exception the operation raises. -/
def runCmd (c : LCmd) (s : Store σ) : Except StoreError Unit × Store σ :=
  match c with
  | .subNew body =>
    match subscribe body s with
    | (.ok _, s1) => (.ok (), s1)
    | (.error e, s1) => (.error e, s1)
  | .unsubH id => unsubscribe id s

/-- Run a listener's script, stopping at the first exception. -/
def runScript : Script → Store σ → Except StoreError Unit × Store σ
  | [], s => (.ok (), s)
  | c :: cs, s =>
    match runCmd c s with
    | (.ok (), s1) => runScript cs s1
    | (.error e, s1) => (.error e, s1)

/-- The behavior registered for a listener id (no-op when absent; every id
in a listener list has an entry in any reachable store). -/
def behaviorOf (id : Nat) (s : Store σ) : Script :=
  match s.behaviors.lookup id with
  | some b => b
  | none => []

/-- The notification loop of `dispatch`: invoke each listener of the snapshot
in order (recording the invocation in the ghost log), running its script
against the current store; a listener exception propagates out. -/
def notify : List Nat → Store σ → Except StoreError Unit × Store σ
  | [], s => (.ok (), s)
  | id :: rest, s =>
    match runScript (behaviorOf id s) { s with log := s.log ++ [id] } with
    | (.ok (), s1) => notify rest s1
    | (.error e, s1) => (.error e, s1)

/-- A consumer-supplied reducer's behavior when invoked with the current state
and the action: a pure function of them; raising an exception; or performing a
nested `store.dispatch(inner)` and, if that returns, returning its state
argument unchanged. -/
inductive RedB (σ π : Type) where
  | pureR (f : σ → ActionV π → σ)
  | raises (code : Nat)
  | nested (inner : ActionV π)

/-- `dispatch(action)` with reducer behavior `r`:
rejects non-plain-object actions and actions with an undefined `type`
(`InvalidAction`), rejects re-entrant calls (`IllegalStateAccess`); otherwise
sets `isDispatching` and invokes the reducer with the current state and the
action (a `RedB.nested` reducer performs `store.dispatch(inner)` itself,
consuming one unit of `fuel`, and on a thrown exception lets it propagate).
The flag reset is in a `finally`, so a reducer exception leaves the flag
cleared and propagates with the state otherwise untouched.  On success,
stores the new state, commits the pending listener list
(`const listeners = (currentListeners = nextListeners)` — the snapshot),
notifies every snapshot listener in order, and returns the original action.
`fuel` bounds nested dispatch depth and is consumed only by nesting. -/
def dispatch : Nat → RedB σ π → ActionV π → Store σ →
    Except StoreError (ActionV π) × Store σ
  | fuel, r, a, s =>
    if ¬ isPlainObject a.value then (.error .invalidAction, s)
    else if ¬ a.hasType then (.error .invalidAction, s)
    else if s.isDispatching then (.error .illegalStateAccess, s)
    else
      let s0 := { s with isDispatching := true }
      let red : Except StoreError σ × Store σ :=
        match r with
        | .pureR f => (.ok (f s0.stateV a), s0)
        | .raises code => (.error (.userError code), s0)
        | .nested inner =>
          match fuel with
          | 0 => (.error .fuelExhausted, s0)
          | n + 1 =>
            match dispatch n r inner s0 with
            | (.ok _, s1) => (.ok s0.stateV, s1)
            | (.error e, s1) => (.error e, s1)
      match red with
      | (.error e, s1) => (.error e, { s1 with isDispatching := false })
      | (.ok newState, s1) =>
        let s2 := { s1 with stateV := newState, isDispatching := false }
        let s3 := { s2 with currentListeners := s2.nextListeners, sameRef := true }
        match notify s3.currentListeners s3 with
        | (.ok (), s4) => (.ok a, s4)
        | (.error e, s4) => (.error e, s4)

/-- `createStore(reducer, preloadedState)` (no enhancer): initializes the
mutable variables and dispatches `{ type: ActionTypes.INIT }` so the reducer
produces the initial state tree.  The pair is the result of that bootstrap
dispatch (an exception in it propagates out of `createStore`) and the store. -/
def createStore (fuel : Nat) (r : RedB σ π) (preloaded : σ) :
    Except StoreError (ActionV π) × Store σ :=
  dispatch fuel r (initAction π)
    { stateV := preloaded
      currentListeners := []
      nextListeners := []
      sameRef := true
      isDispatching := false
      nextId := 0
      behaviors := []
      revoked := []
      log := [] }

example :
    createStore 1 (.pureR fun s _ => s + 1) (0 : Nat) (π := Nat) =
      (.ok (initAction Nat),
        { stateV := 1, currentListeners := [], nextListeners := [], sameRef := true,
          isDispatching := false, nextId := 0, behaviors := [], revoked := [], log := [] }) := by
  rfl

/-- A `createStore` argument as its typeof-based dispatching sees it:
a function (with an identity, standing for which function object it is),
a defined non-function value (with an identity), or `undefined`. -/
inductive JSArg where
  | func (id : Nat)
  | nonFunc (id : Nat)
  | undef
  deriving DecidableEq, Repr

/-- `typeof arg === 'function'`. -/
def JSArg.isFunc : JSArg → Bool
  | .func _ => true
  | _ => false

/-- What the head of `createStore(reducer, preloadedState, enhancer)` decides
to do with its arguments. -/
inductive ConstructOutcome where
  | err (e : StoreError)
  | delegate (enhancer : JSArg) (reducer : JSArg) (preloaded : JSArg)
  | construct (reducer : JSArg) (preloaded : JSArg)
  deriving DecidableEq, Repr

/-- The argument-normalization head of `createStore` (lines 84–111):
raises if both `preloadedState` and `enhancer` are functions, or both
`enhancer` and `arguments[3]` are; reinterprets a function passed as
`preloadedState` as the enhancer when `enhancer` is `undefined`; with an
enhancer present, checks it is a function and delegates the whole
construction to `enhancer(createStore)(reducer, preloadedState)`; otherwise
checks `reducer` is a function and performs the normal construction. -/
def createStoreHeader (reducer preloadedState enhancer arg3 : JSArg) : ConstructOutcome :=
  if (preloadedState.isFunc && enhancer.isFunc) || (enhancer.isFunc && arg3.isFunc) then
    .err .invalidArgument
  else
    let norm :=
      if preloadedState.isFunc && (enhancer == .undef) then (JSArg.undef, preloadedState)
      else (preloadedState, enhancer)
    let preloadedState := norm.1
    let enhancer := norm.2
    if enhancer ≠ .undef then
      if ¬ enhancer.isFunc then .err .invalidArgument
      else .delegate enhancer reducer preloadedState
    else if ¬ reducer.isFunc then .err .invalidArgument
    else .construct reducer preloadedState

/-- The middleware API's forwarding dispatch reference from `applyMiddleware`:
a one-slot cell holding the target of `(...args) => dispatch(...args)`.
During chain construction the cell is empty (`dispatch` is still the
placeholder that throws); after step 5 it holds the final composed
dispatch. -/
def forwardRef {α β : Type} (cell : Option (α → β)) (a : α) : Except StoreError β :=
  match cell with
  | none => .error .prematureDispatch
  | some d => .ok (d a)

/-- The final augmented dispatch installed by `applyMiddleware`:
`dispatch = compose(...chain)(store.dispatch)` where `chain` is the list of
interceptors produced by the middleware factories. -/
def installedDispatch {α β : Type} (chain : List ((α → β) → (α → β)))
    (storeDispatch : α → β) : α → β :=
  compose chain storeDispatch

/-- Dispatch a sequence of actions one after the other, stopping at the first
exception. -/
def dispatchAll (fuel : Nat) (r : RedB σ π) : List (ActionV π) → Store σ →
    Except StoreError Unit × Store σ
  | [], s => (.ok (), s)
  | a :: rest, s =>
    match dispatch fuel r a s with
    | (.ok _, s1) => dispatchAll fuel r rest s1
    | (.error e, s1) => (.error e, s1)

/-- An identity reducer over `Nat` state, for concrete scenarios. -/
def demoReducer : RedB Nat Nat := .pureR fun s _ => s

/-- A valid consumer action `{ type: 7 }` for concrete scenarios. -/
def demoAct : ActionV Nat := { value := plainValue, typeField := some (.user 7) }

/-- Scenario: a freshly constructed store on which one listener (handle id 0)
is subscribed whose callback, when invoked, subscribes a new listener and then
unsubscribes itself. -/
def demoStore1 : Store Nat :=
  (subscribe [LCmd.subNew [], LCmd.unsubH 0] (createStore 1 demoReducer 0).2).2

/-- Scenario round 1: dispatch once on `demoStore1`. -/
def demoRound1 : Except StoreError (ActionV Nat) × Store Nat :=
  dispatch 1 demoReducer demoAct demoStore1

/-- Scenario round 2: dispatch a second time. -/
def demoRound2 : Except StoreError (ActionV Nat) × Store Nat :=
  dispatch 1 demoReducer demoAct demoRound1.2

/-- Listener commands executed while the store is idle (the situation during
notification) never raise, and touch neither the committed listener list, the
state, the flag, nor the invocation log. -/
theorem runCmd_idle (c : LCmd) (s : Store σ) (h : s.isDispatching = false) :
    (runCmd c s).1 = .ok () ∧
    (runCmd c s).2.isDispatching = false ∧
    (runCmd c s).2.log = s.log ∧
    (runCmd c s).2.stateV = s.stateV ∧
    (runCmd c s).2.currentListeners = s.currentListeners := by
  cases c with
  | subNew body =>
    simp only [runCmd, subscribe, h, Bool.false_eq_true, if_false,
      ensureCanMutateNextListeners]
    split <;> simp [h]
  | unsubH id =>
    simp only [runCmd, unsubscribe, h, Bool.false_eq_true, if_false,
      ensureCanMutateNextListeners]
    split
    · simp [h]
    · split <;> simp [h]

/-- Scripts executed while the store is idle never raise and preserve the
committed listener list, the state, the flag, and the invocation log. -/
theorem runScript_idle (cs : Script) (s : Store σ) (h : s.isDispatching = false) :
    (runScript cs s).1 = .ok () ∧
    (runScript cs s).2.isDispatching = false ∧
    (runScript cs s).2.log = s.log ∧
    (runScript cs s).2.stateV = s.stateV ∧
    (runScript cs s).2.currentListeners = s.currentListeners := by
  induction cs generalizing s with
  | nil => simp [runScript, h]
  | cons c cs ih =>
    obtain ⟨h1, h2, h3, h4, h5⟩ := runCmd_idle c s h
    simp only [runScript]
    rcases hc : runCmd c s with ⟨r, s1⟩
    rw [hc] at h1 h2 h3 h4 h5
    simp only at h1 h2 h3 h4 h5
    subst h1
    obtain ⟨g1, g2, g3, g4, g5⟩ := ih s1 h2
    simp [g1, g2, g3, g4, g5, h3, h4, h5]

/-- The notification loop on an idle store never raises, invokes exactly the
snapshot ids in order (appending them to the ghost log), and preserves the
committed listener list, the state, and the flag — no matter what the
listeners' scripts subscribe or unsubscribe. -/
theorem notify_idle (ids : List Nat) (s : Store σ) (h : s.isDispatching = false) :
    (notify ids s).1 = .ok () ∧
    (notify ids s).2.isDispatching = false ∧
    (notify ids s).2.log = s.log ++ ids ∧
    (notify ids s).2.stateV = s.stateV ∧
    (notify ids s).2.currentListeners = s.currentListeners := by
  induction ids generalizing s with
  | nil => simp [notify, h]
  | cons id rest ih =>
    simp only [notify]
    have h0 : (({ s with log := s.log ++ [id] } : Store σ)).isDispatching = false := h
    obtain ⟨h1, h2, h3, h4, h5⟩ :=
      runScript_idle (behaviorOf id s) { s with log := s.log ++ [id] } h0
    rcases hc : runScript (behaviorOf id s)
        ({ s with log := s.log ++ [id] } : Store σ) with ⟨r, s1⟩
    rw [hc] at h1 h2 h3 h4 h5
    simp only at h1 h2 h3 h4 h5
    subst h1
    obtain ⟨g1, g2, g3, g4, g5⟩ := ih s1 h2
    simp [g1, g2, g3, g4, g5, h3, h4, h5]

/-- A dispatch of a valid action on an idle store with a pure reducer:
returns the action, ends idle, stores the reducer's result, commits the
pending listener list as the new committed list, and invokes exactly the
pending-at-entry listeners in order — whatever their scripts do. -/
theorem dispatch_pure (fuel : Nat) (f : σ → ActionV π → σ) (a : ActionV π) (s : Store σ)
    (hp : isPlainObject a.value = true) (ht : a.hasType = true)
    (hd : s.isDispatching = false) :
    (dispatch fuel (.pureR f) a s).1 = .ok a ∧
    (dispatch fuel (.pureR f) a s).2.isDispatching = false ∧
    (dispatch fuel (.pureR f) a s).2.stateV = f s.stateV a ∧
    (dispatch fuel (.pureR f) a s).2.log = s.log ++ s.nextListeners ∧
    (dispatch fuel (.pureR f) a s).2.currentListeners = s.nextListeners := by
  simp only [dispatch, hp, ht, hd, Bool.false_eq_true, not_true, not_false_iff,
    if_false, if_true, Bool.true_eq_false]
  have hni := notify_idle s.nextListeners
    (⟨f s.stateV a, s.nextListeners, s.nextListeners, true, false,
      s.nextId, s.behaviors, s.revoked, s.log⟩ : Store σ) rfl
  split
  all_goals rename_i s4 heq
  · rw [heq] at hni
    obtain ⟨n1, n2, n3, n4, n5⟩ := hni
    simp only at n2 n3 n4 n5
    exact ⟨rfl, n2, n4, n3, n5⟩
  · rw [heq] at hni
    obtain ⟨n1, -⟩ := hni
    simp at n1

example : demoRound1.1 = .ok demoAct := by rfl
example : demoRound1.2.log = [0] := by rfl
example : demoRound1.2.nextListeners = [1] := by rfl
example : demoRound2.2.log = [0, 1] := by rfl

/-- Dispatching a list of valid actions with a pure reducer from an idle store
succeeds and left-folds the reducer over the actions. -/
theorem dispatchAll_pure (fuel : Nat) (f : σ → ActionV π → σ) (actions : List (ActionV π))
    (s : Store σ) (hd : s.isDispatching = false)
    (hv : ∀ a ∈ actions, isPlainObject a.value = true ∧ a.hasType = true) :
    (dispatchAll fuel (.pureR f) actions s).1 = .ok () ∧
    (dispatchAll fuel (.pureR f) actions s).2.isDispatching = false ∧
    (dispatchAll fuel (.pureR f) actions s).2.stateV = actions.foldl f s.stateV := by
  induction actions generalizing s with
  | nil => simp [dispatchAll, hd]
  | cons a rest ih =>
    obtain ⟨hpa, hta⟩ := hv a (by simp)
    obtain ⟨d1, d2, d3, -, -⟩ := dispatch_pure fuel f a s hpa hta hd
    simp only [dispatchAll]
    rcases hdp : dispatch fuel (.pureR f) a s with ⟨r, s1⟩
    rw [hdp] at d1 d2 d3
    simp only at d1 d2 d3
    subst d1
    obtain ⟨g1, g2, g3⟩ := ih s1 d2 (fun x hx => hv x (by simp [hx]))
    simp [List.foldl_cons, g1, g2, g3, d3]

/-- Claim C5: dispatch fails with InvalidAction when the action is not a plain
structural record — the plain-record predicate excludes non-objects, `null`,
and class instances (prototype chain longer than `[Object.prototype]`) — and
fails with InvalidAction when the `type` field is absent; both validations
return before any state change or listener notification, leaving the store
exactly as it was. -/
theorem redux_C5_invalid_action_rejected :
    (isPlainObject .prim = false) ∧
    (isPlainObject .jsNull = false) ∧
    (∀ p q : Nat, p ≠ q → isPlainObject (.object [p, q]) = false) ∧
    (∀ (σ π : Type) (fuel : Nat) (r : RedB σ π) (a : ActionV π) (s : Store σ),
      isPlainObject a.value = false →
      dispatch fuel r a s = (.error .invalidAction, s)) ∧
    (∀ (σ π : Type) (fuel : Nat) (r : RedB σ π) (a : ActionV π) (s : Store σ),
      isPlainObject a.value = true → a.hasType = false →
      dispatch fuel r a s = (.error .invalidAction, s)) := by
  refine ⟨rfl, rfl, ?_, ?_, ?_⟩
  · intro p q hpq
    simp [isPlainObject, protoWalk, hpq]
  · intro σ π fuel r a s h
    simp [dispatch, h]
  · intro σ π fuel r a s h1 h2
    simp [dispatch, h1, h2]

/-- Claim C5 witness: concrete rejections — a class instance (chain of two
distinct prototypes) and an action with no `type` field, each leaving the
store untouched. -/
theorem redux_C5_invalid_action_rejected_witness :
    ((1 : Nat) ≠ 0 ∧ isPlainObject (.object [1, 0]) = false) ∧
    (isPlainObject (ActionV.mk (.object [1, 0]) (some (.user 3))).value = false ∧
      dispatch 1 demoReducer (ActionV.mk (.object [1, 0]) (some (.user 3))) demoStore1 =
        (.error .invalidAction, demoStore1)) ∧
    (isPlainObject (ActionV.mk plainValue (none : Option (ATyp Nat))).value = true ∧
      (ActionV.mk plainValue (none : Option (ATyp Nat))).hasType = false ∧
      dispatch 1 demoReducer (ActionV.mk plainValue (none : Option (ATyp Nat))) demoStore1 =
        (.error .invalidAction, demoStore1)) := by
  refine ⟨⟨by decide, redux_C5_invalid_action_rejected.2.2.1 1 0 (by decide)⟩,
    ⟨rfl, redux_C5_invalid_action_rejected.2.2.2.1 Nat Nat 1 demoReducer _ demoStore1 rfl⟩,
    ⟨rfl, rfl, redux_C5_invalid_action_rejected.2.2.2.2 Nat Nat 1 demoReducer _ demoStore1 rfl rfl⟩⟩

/-- Claim C6: the forwarding dispatch handed to the interceptor factories
fails with PrematureDispatch whenever it is invoked while the indirection
cell is still empty (any time before step 5 installs the composed dispatch),
and once the composed dispatch `compose(...chain)(store.dispatch)` is
installed, the same forwarding reference transparently invokes it. -/
theorem redux_C6_premature_dispatch :
    (∀ (α β : Type) (a : α),
      forwardRef (none : Option (α → β)) a = .error .prematureDispatch) ∧
    (∀ (α β : Type) (chain : List ((α → β) → (α → β))) (sd : α → β) (a : α),
      forwardRef (some (installedDispatch chain sd)) a = .ok (installedDispatch chain sd a)) :=
  ⟨fun _ _ _ => rfl, fun _ _ _ _ _ => rfl⟩

/-- Claim C7: the composer applied to zero functions is the identity, applied
to one function returns it unchanged (definitionally equal — no wrapper), and
applied to three functions satisfies compose(f, g, h)(x) = f(g(h(x))). -/
theorem redux_C7_compose_round_trip :
    (∀ (α : Type) (x : α), compose [] x = x) ∧
    (∀ (α : Type) (f : α → α), compose [f] = f) ∧
    (∀ (α : Type) (f g h : α → α) (x : α), compose [f, g, h] x = f (g (h x))) :=
  ⟨fun _ _ => rfl, fun _ _ => rfl, fun _ _ _ _ _ => rfl⟩

/-- Claim C8: a function passed in the initialState position with no enhancer
supplied is reinterpreted as the enhancer (initialState becomes absent);
construction fails with InvalidArgument when both initialState and enhancer
are functions, or both enhancer and the fourth argument are; and with a
proper enhancer present the construction delegates, handing the enhancer the
reducer and initial state, rather than constructing the store itself. -/
theorem redux_C8_enhancer_argument_handling :
    (∀ (r : JSArg) (fid : Nat) (arg3 : JSArg),
      createStoreHeader r (.func fid) .undef arg3 = .delegate (.func fid) r .undef) ∧
    (∀ (r pre enh arg3 : JSArg), pre.isFunc = true → enh.isFunc = true →
      createStoreHeader r pre enh arg3 = .err .invalidArgument) ∧
    (∀ (r pre enh arg3 : JSArg), enh.isFunc = true → arg3.isFunc = true →
      createStoreHeader r pre enh arg3 = .err .invalidArgument) ∧
    (∀ (r pre arg3 : JSArg) (eid : Nat), pre.isFunc = false → arg3.isFunc = false →
      createStoreHeader r pre (.func eid) arg3 = .delegate (.func eid) r pre) := by
  refine ⟨?_, ?_, ?_, ?_⟩
  · intro r fid arg3
    cases arg3 <;> rfl
  · intro r pre enh arg3 h1 h2
    simp [createStoreHeader, h1, h2]
  · intro r pre enh arg3 h1 h2
    simp [createStoreHeader, h1, h2]
  · intro r pre arg3 eid h1 h2
    cases pre <;> cases arg3 <;> simp_all [createStoreHeader, JSArg.isFunc]

/-- Claim C8 witness: concrete argument vectors — two enhancers in positions
2 and 3 rejected; enhancer plus a fourth function rejected; enhancer with a
real initial state delegated with that state. -/
theorem redux_C8_enhancer_argument_handling_witness :
    (JSArg.isFunc (.func 1) = true ∧ JSArg.isFunc (.func 2) = true ∧
      createStoreHeader (.func 0) (.func 1) (.func 2) .undef = .err .invalidArgument) ∧
    (createStoreHeader (.func 0) (.nonFunc 9) (.func 2) (.func 3) = .err .invalidArgument) ∧
    (JSArg.isFunc (.nonFunc 9) = false ∧ JSArg.isFunc .undef = false ∧
      createStoreHeader (.func 0) (.nonFunc 9) (.func 2) .undef =
        .delegate (.func 2) (.func 0) (.nonFunc 9)) :=
  ⟨⟨rfl, rfl, redux_C8_enhancer_argument_handling.2.1 (.func 0) (.func 1) (.func 2) .undef rfl rfl⟩,
    redux_C8_enhancer_argument_handling.2.2.1 (.func 0) (.nonFunc 9) (.func 2) (.func 3) rfl rfl,
    ⟨rfl, rfl,
      redux_C8_enhancer_argument_handling.2.2.2 (.func 0) (.nonFunc 9) .undef 2 rfl rfl⟩⟩

/-- Claim C10: an unsubscribe capability that has already been invoked
returns silently on every later invocation — no error, no change to the
store, in particular also while the store is dispatching, because the
already-revoked check precedes the re-entrancy check. -/
theorem redux_C10_revoked_unsubscribe_noop :
    ∀ (σ : Type) (s : Store σ) (id : Nat), id ∈ s.revoked →
      unsubscribe id s = (.ok (), s) := by
  intro σ s id h
  simp [unsubscribe, h]

/-- Claim C10 witness: a revoked handle invoked on a store that is mid
dispatch returns silently with the store unchanged. -/
theorem redux_C10_revoked_unsubscribe_noop_witness :
    (3 ∈ [3] ∧
      unsubscribe 3 (Store.mk (0 : Nat) [] [] false true 4 [] [3] []) =
        (.ok (), Store.mk (0 : Nat) [] [] false true 4 [] [3] [])) :=
  ⟨by decide,
    redux_C10_revoked_unsubscribe_noop Nat (Store.mk (0 : Nat) [] [] false true 4 [] [3] []) 3
      (by decide)⟩

/-- A dispatch of a valid action while the store is already dispatching fails
with IllegalStateAccess and leaves the store untouched, for every reducer
behavior. -/
theorem dispatch_busy (fuel : Nat) (r : RedB σ π) (a : ActionV π) (s : Store σ)
    (hp : isPlainObject a.value = true) (ht : a.hasType = true)
    (hb : s.isDispatching = true) :
    dispatch fuel r a s = (.error .illegalStateAccess, s) := by
  cases fuel <;> simp [dispatch, hp, ht, hb]

/-- Claim C1: for every sequence of valid actions dispatched after
construction, each dispatch succeeds and `getState` afterwards returns the
left fold of the reducer over those actions, starting from the bootstrap
state — the reducer applied to the preloaded state and the internal
initialize action. -/
theorem redux_C1_state_is_left_fold :
    ∀ (σ π : Type) (fuel : Nat) (f : σ → ActionV π → σ) (pre : σ)
      (actions : List (ActionV π)),
      (∀ a ∈ actions, isPlainObject a.value = true ∧ a.hasType = true) →
      (createStore fuel (.pureR f) pre).1 = .ok (initAction π) ∧
      (dispatchAll fuel (.pureR f) actions (createStore fuel (.pureR f) pre).2).1 = .ok () ∧
      getState (dispatchAll fuel (.pureR f) actions (createStore fuel (.pureR f) pre).2).2 =
        .ok (actions.foldl f (f pre (initAction π))) := by
  intro σ π fuel f pre actions hv
  have hcs : createStore fuel (RedB.pureR f) pre =
      dispatch fuel (RedB.pureR f) (initAction π)
        ⟨pre, [], [], true, false, 0, [], [], []⟩ := rfl
  obtain ⟨c1, c2, c3, -, -⟩ :=
    dispatch_pure fuel f (initAction π) ⟨pre, [], [], true, false, 0, [], [], []⟩ rfl rfl rfl
  have hd2 : (createStore fuel (RedB.pureR f) pre).2.isDispatching = false := by
    rw [hcs]; exact c2
  have hst : (createStore fuel (RedB.pureR f) pre).2.stateV = f pre (initAction π) := by
    rw [hcs]; exact c3
  obtain ⟨g1, g2, g3⟩ :=
    dispatchAll_pure fuel f actions (createStore fuel (RedB.pureR f) pre).2 hd2 hv
  refine ⟨by rw [hcs]; exact c1, g1, ?_⟩
  simp [getState, g2, g3, hst]

/-- Claim C1 witness: with the always-increment reducer and two valid actions
dispatched after construction, `getState` returns the fold value 3 (one
increment from the bootstrap round plus two from the dispatches). -/
theorem redux_C1_state_is_left_fold_witness :
    (∀ a ∈ [demoAct, demoAct], isPlainObject a.value = true ∧ a.hasType = true) ∧
    getState (dispatchAll 1 (.pureR fun (s : Nat) (_ : ActionV Nat) => s + 1)
        [demoAct, demoAct]
        (createStore 1 (.pureR fun (s : Nat) (_ : ActionV Nat) => s + 1) 0).2).2 =
      .ok ([demoAct, demoAct].foldl (fun (s : Nat) (_ : ActionV Nat) => s + 1)
        ((fun (s : Nat) (_ : ActionV Nat) => s + 1) 0 (initAction Nat))) :=
  ⟨by decide,
    (redux_C1_state_is_left_fold Nat Nat 1 (fun s _ => s + 1) 0 [demoAct, demoAct]
      (by decide)).2.2⟩

/-- Claim C2: round N invokes exactly the callbacks of the listener sequence
committed at round start, in registration order, for every combination of
subscribe/unsubscribe activity the callbacks perform (the appended log and
the committed list do not depend on the scripts); concretely, a callback
that subscribes a new listener and unsubscribes itself during round 1 is
still invoked in round 1, affects the sequence only from round 2 on, and is
never invoked again, while the newly subscribed listener is invoked exactly
from round 2 on. -/
theorem redux_C2_snapshot_notification :
    (∀ (σ π : Type) (fuel : Nat) (f : σ → ActionV π → σ) (a : ActionV π) (s : Store σ),
      isPlainObject a.value = true → a.hasType = true → s.isDispatching = false →
      (dispatch fuel (.pureR f) a s).1 = .ok a ∧
      (dispatch fuel (.pureR f) a s).2.log = s.log ++ s.nextListeners ∧
      (dispatch fuel (.pureR f) a s).2.currentListeners = s.nextListeners) ∧
    demoStore1.nextListeners = [0] ∧
    demoRound1.1 = .ok demoAct ∧
    demoRound1.2.log = [0] ∧
    demoRound1.2.nextListeners = [1] ∧
    demoRound2.1 = .ok demoAct ∧
    demoRound2.2.log = [0, 1] := by
  refine ⟨?_, rfl, rfl, rfl, rfl, rfl, rfl⟩
  intro σ π fuel f a s hp ht hd
  obtain ⟨d1, -, -, d4, d5⟩ := dispatch_pure fuel f a s hp ht hd
  exact ⟨d1, d4, d5⟩

/-- Claim C2 witness: the snapshot property applied to the concrete scenario
store whose sole listener unsubscribes itself. -/
theorem redux_C2_snapshot_notification_witness :
    (isPlainObject demoAct.value = true ∧ demoAct.hasType = true ∧
      demoStore1.isDispatching = false) ∧
    ((dispatch 1 (.pureR fun (s : Nat) (_ : ActionV Nat) => s) demoAct demoStore1).1 =
        .ok demoAct ∧
      (dispatch 1 (.pureR fun (s : Nat) (_ : ActionV Nat) => s) demoAct demoStore1).2.log =
        demoStore1.log ++ demoStore1.nextListeners ∧
      (dispatch 1 (.pureR fun (s : Nat) (_ : ActionV Nat) => s) demoAct
          demoStore1).2.currentListeners = demoStore1.nextListeners) :=
  ⟨⟨rfl, rfl, rfl⟩,
    redux_C2_snapshot_notification.1 Nat Nat 1 (fun s _ => s) demoAct demoStore1 rfl rfl rfl⟩

/-- Claim C3: when the reducer raises during a dispatch of a valid action,
the dispatching flag is reset (the whole store is returned exactly as it
was, so state, committed listeners and log are unchanged and no callback
ran), the error propagates to the caller, and a subsequent top-level
dispatch on the very same store succeeds. -/
theorem redux_C3_reducer_exception :
    ∀ (σ π : Type) (fuel fuel2 k : Nat) (a a2 : ActionV π) (f : σ → ActionV π → σ)
      (s : Store σ),
      isPlainObject a.value = true → a.hasType = true → s.isDispatching = false →
      isPlainObject a2.value = true → a2.hasType = true →
      dispatch fuel (.raises k) a s = (.error (.userError k), s) ∧
      (dispatch fuel2 (.pureR f) a2 s).1 = .ok a2 := by
  intro σ π fuel fuel2 k a a2 f s hp ht hd hp2 ht2
  constructor
  · rcases s with ⟨sv, cl, nl, sr, di, ni, bh, rv, lg⟩
    obtain rfl : di = false := hd
    simp [dispatch, hp, ht]
  · exact (dispatch_pure fuel2 f a2 s hp2 ht2 hd).1

/-- Claim C3 witness: a raising reducer on the concrete scenario store leaves
it untouched and a following dispatch succeeds. -/
theorem redux_C3_reducer_exception_witness :
    (isPlainObject demoAct.value = true ∧ demoAct.hasType = true ∧
      demoStore1.isDispatching = false) ∧
    (dispatch 1 (.raises 5) demoAct demoStore1 = (.error (.userError 5), demoStore1) ∧
      (dispatch 1 (.pureR fun (s : Nat) (_ : ActionV Nat) => s) demoAct demoStore1).1 =
        .ok demoAct) :=
  ⟨⟨rfl, rfl, rfl⟩,
    redux_C3_reducer_exception Nat Nat 1 1 5 demoAct demoAct (fun s _ => s) demoStore1
      rfl rfl rfl rfl rfl⟩

/-- Claim C4: while the store is dispatching, `getState`, `subscribe`, and a
not-yet-revoked unsubscribe capability each fail with IllegalStateAccess; a
nested dispatch performed by the reducer likewise fails with
IllegalStateAccess, the failure propagates out of the outer dispatch with
the flag reset (the store is returned unchanged), and the next top-level
dispatch succeeds. -/
theorem redux_C4_transitioning_guards :
    ∀ (σ π : Type),
    (∀ s : Store σ, s.isDispatching = true → getState s = .error .illegalStateAccess) ∧
    (∀ (body : Script) (s : Store σ), s.isDispatching = true →
      subscribe body s = (.error .illegalStateAccess, s)) ∧
    (∀ (id : Nat) (s : Store σ), s.isDispatching = true → id ∉ s.revoked →
      unsubscribe id s = (.error .illegalStateAccess, s)) ∧
    (∀ (n fuel2 : Nat) (a inner a2 : ActionV π) (f : σ → ActionV π → σ) (s : Store σ),
      isPlainObject a.value = true → a.hasType = true →
      isPlainObject inner.value = true → inner.hasType = true →
      s.isDispatching = false →
      isPlainObject a2.value = true → a2.hasType = true →
      dispatch (n + 1) (.nested inner) a s = (.error .illegalStateAccess, s) ∧
      (dispatch fuel2 (.pureR f) a2 s).1 = .ok a2) := by
  intro σ π
  refine ⟨?_, ?_, ?_, ?_⟩
  · intro s h
    simp [getState, h]
  · intro body s h
    simp [subscribe, h]
  · intro id s h h2
    simp [unsubscribe, h, h2]
  · intro n fuel2 a inner a2 f s hp ht hpI htI hd hp2 ht2
    constructor
    · have hin := dispatch_busy n (RedB.nested inner) inner
        { s with isDispatching := true } hpI htI rfl
      rcases s with ⟨sv, cl, nl, sr, di, ni, bh, rv, lg⟩
      obtain rfl : di = false := hd
      simp [dispatch, hp, ht, hin]
    · exact (dispatch_pure fuel2 f a2 s hp2 ht2 hd).1

/-- Claim C4 witness: the four guards exercised on a concrete mid-dispatch
store, and a nested dispatch attempt on the concrete idle scenario store. -/
theorem redux_C4_transitioning_guards_witness :
    ((Store.mk (0 : Nat) [] [] false true 4 [] [3] []).isDispatching = true ∧
      getState (Store.mk (0 : Nat) [] [] false true 4 [] [3] []) =
        .error .illegalStateAccess) ∧
    (subscribe [] (Store.mk (0 : Nat) [] [] false true 4 [] [3] []) =
      (.error .illegalStateAccess, Store.mk (0 : Nat) [] [] false true 4 [] [3] [])) ∧
    ((7 : Nat) ∉ [3] ∧
      unsubscribe 7 (Store.mk (0 : Nat) [] [] false true 4 [] [3] []) =
        (.error .illegalStateAccess, Store.mk (0 : Nat) [] [] false true 4 [] [3] [])) ∧
    (demoStore1.isDispatching = false ∧
      dispatch 1 (.nested demoAct) demoAct demoStore1 =
        (.error .illegalStateAccess, demoStore1) ∧
      (dispatch 1 (.pureR fun (s : Nat) (_ : ActionV Nat) => s) demoAct demoStore1).1 =
        .ok demoAct) :=
  ⟨⟨rfl, (redux_C4_transitioning_guards Nat Nat).1 _ rfl⟩,
    (redux_C4_transitioning_guards Nat Nat).2.1 [] _ rfl,
    ⟨by decide, (redux_C4_transitioning_guards Nat Nat).2.2.1 7 _ rfl (by decide)⟩,
    ⟨rfl,
      ((redux_C4_transitioning_guards Nat Nat).2.2.2 0 1 demoAct demoAct demoAct
        (fun s _ => s) demoStore1 rfl rfl rfl rfl rfl rfl rfl).1,
      ((redux_C4_transitioning_guards Nat Nat).2.2.2 0 1 demoAct demoAct demoAct
        (fun s _ => s) demoStore1 rfl rfl rfl rfl rfl rfl rfl).2⟩⟩

/-- A dispatch of a non-plain-object action fails at the first validation,
leaving the store untouched, for every reducer behavior and flag state. -/
theorem dispatch_not_plain (fuel : Nat) (r : RedB σ π) (a : ActionV π) (s : Store σ)
    (h : isPlainObject a.value = false) :
    dispatch fuel r a s = (.error .invalidAction, s) := by
  simp [dispatch, h]

/-- A dispatch of a plain-object action with an undefined `type` fails at the
second validation, leaving the store untouched. -/
theorem dispatch_no_type (fuel : Nat) (r : RedB σ π) (a : ActionV π) (s : Store σ)
    (h1 : isPlainObject a.value = true) (h2 : a.hasType = false) :
    dispatch fuel r a s = (.error .invalidAction, s) := by
  simp [dispatch, h1, h2]

/-- A valid dispatch whose reducer raises returns the raised error with the
store exactly as it was (flag reset included). -/
theorem dispatch_raises (fuel k : Nat) (a : ActionV π) (s : Store σ)
    (hp : isPlainObject a.value = true) (ht : a.hasType = true)
    (hd : s.isDispatching = false) :
    dispatch fuel (.raises k) a s = (.error (.userError k), s) := by
  rcases s with ⟨sv, cl, nl, sr, di, ni, bh, rv, lg⟩
  obtain rfl : di = false := hd
  simp [dispatch, hp, ht]

/-- A valid dispatch whose reducer performs a nested dispatch always
propagates an error (the nested call cannot pass the re-entrancy guard),
with the store exactly as it was. -/
theorem dispatch_nested_err (fuel : Nat) (inner a : ActionV π) (s : Store σ)
    (hp : isPlainObject a.value = true) (ht : a.hasType = true)
    (hd : s.isDispatching = false) :
    ∃ e, dispatch fuel (.nested inner) a s = (.error e, s) := by
  rcases s with ⟨sv, cl, nl, sr, di, ni, bh, rv, lg⟩
  obtain rfl : di = false := hd
  cases fuel with
  | zero => exact ⟨.fuelExhausted, by simp [dispatch, hp, ht]⟩
  | succ n =>
    by_cases hpI : isPlainObject inner.value = true
    · by_cases htI : inner.hasType = true
      · refine ⟨.illegalStateAccess, ?_⟩
        have hin := dispatch_busy n (RedB.nested inner) inner
          ⟨sv, cl, nl, sr, true, ni, bh, rv, lg⟩ hpI htI rfl
        simp [dispatch, hp, ht, hin]
      · refine ⟨.invalidAction, ?_⟩
        have hin := dispatch_no_type n (RedB.nested inner) inner
          ⟨sv, cl, nl, sr, true, ni, bh, rv, lg⟩ hpI (by simpa using htI)
        simp [dispatch, hp, ht, hin]
    · refine ⟨.invalidAction, ?_⟩
      have hin := dispatch_not_plain n (RedB.nested inner) inner
        ⟨sv, cl, nl, sr, true, ni, bh, rv, lg⟩ (by simpa using hpI)
      simp [dispatch, hp, ht, hin]

/-- Claim C9: whenever dispatch succeeds — for any reducer behavior, action,
store, and fuel — the value returned is the very action that was passed in. -/
theorem redux_C9_dispatch_returns_action :
    ∀ (σ π : Type) (fuel : Nat) (r : RedB σ π) (a x : ActionV π) (s s1 : Store σ),
      dispatch fuel r a s = (.ok x, s1) → x = a := by
  intro σ π fuel r a x s s1 h
  by_cases hp : isPlainObject a.value = true
  · by_cases ht : a.hasType = true
    · by_cases hd : s.isDispatching = false
      · cases r with
        | pureR f =>
          have h1 := (dispatch_pure fuel f a s hp ht hd).1
          rw [h] at h1
          simp only [Except.ok.injEq] at h1
          exact h1
        | raises k =>
          rw [dispatch_raises fuel k a s hp ht hd] at h
          simp at h
        | nested inner =>
          obtain ⟨e, he⟩ := dispatch_nested_err fuel inner a s hp ht hd
          rw [he] at h
          simp at h
      · have hb : s.isDispatching = true := by
          revert hd
          cases s.isDispatching <;> simp
        rw [dispatch_busy fuel r a s hp ht hb] at h
        simp at h
    · have ht2 : a.hasType = false := by
        revert ht
        cases a.hasType <;> simp
      rw [dispatch_no_type fuel r a s hp ht2] at h
      simp at h
  · have hp2 : isPlainObject a.value = false := by
      revert hp
      cases isPlainObject a.value <;> simp
    rw [dispatch_not_plain fuel r a s hp2] at h
    simp at h

/-- Claim C9 witness: the concrete scenario dispatch returns its action. -/
theorem redux_C9_dispatch_returns_action_witness :
    (dispatch 1 demoReducer demoAct demoStore1 = (.ok demoAct, demoRound1.2)) ∧
    demoAct = demoAct :=
  ⟨rfl,
    redux_C9_dispatch_returns_action Nat Nat 1 demoReducer demoAct demoAct demoStore1
      demoRound1.2 rfl⟩
